import Mathlib

/-!
Verification of the payroll rule-evaluation engine: a shallow embedding of
`core/calculator.py` (class `PayrollCalculator`) and `core/validator.py`
(class `PayrollValidator`), with monetary amounts modelled as rationals.

Python's `round(x, 2)` rounds half to even; `round2` below reproduces that
on exact decimal values.
-/

namespace Payroll

/-- Round a rational to the nearest integer, ties to even (Python `round`). -/
def roundHalfEven (x : ℚ) : ℤ :=
  let f := ⌊x⌋
  let r := x - (f : ℚ)
  if r < 1/2 then f
  else if 1/2 < r then f + 1
  else if f % 2 = 0 then f else f + 1

/-- Round a rational to 2 decimal places, ties to even (Python `round(x, 2)`). -/
def round2 (x : ℚ) : ℚ := (roundHalfEven (x * 100) : ℚ) / 100

/-- A professional-tax slab `{min, max, tax}`; `max = none` is the open-ended slab. -/
structure Slab where
  min : ℚ
  max : Option ℚ
  tax : ℚ
deriving DecidableEq, Repr

/-- The `professional_tax` section of a state's rule table. -/
structure PTData where
  monthly_slabs : List Slab
  annual_ceiling : ℚ
deriving DecidableEq, Repr

/-- The slab test performed by the loop body of `calculate_professional_tax`:
an open-ended slab matches when `min ≤ salary`; a closed slab matches when
`min ≤ salary ≤ max`. -/
def slabMatch (monthly_salary : ℚ) (s : Slab) : Bool :=
  match s.max with
  | none => decide (s.min ≤ monthly_salary)
  | some m => decide (s.min ≤ monthly_salary) && decide (monthly_salary ≤ m)

/-- The slab loop of `calculate_professional_tax`: `tax_amount` starts at 0 and
the loop breaks at the first matching slab. -/
def slab_scan (slabs : List Slab) (monthly_salary : ℚ) : ℚ :=
  match slabs.find? (slabMatch monthly_salary) with
  | some s => s.tax
  | none => 0

/-- `PayrollCalculator.calculate_professional_tax`: scan the slabs in order,
return the tax of the first matching slab, or 0 when none matches. -/
def calculate_professional_tax (pt : PTData) (monthly_salary : ℚ) : ℚ :=
  slab_scan pt.monthly_slabs monthly_salary

/-- The `provident_fund` section of a state's rule table. -/
structure PFData where
  salary_ceiling : ℚ
  employee_contribution_rate : ℚ
  employer_epf_rate : ℚ
  employer_pension_rate : ℚ
  admin_charges_rate : ℚ
  edli_rate : ℚ
deriving DecidableEq, Repr

/-- The dictionary returned by `calculate_provident_fund`. -/
structure PFResult where
  employee_contribution : ℚ
  employer_epf_contribution : ℚ
  employer_pension_contribution : ℚ
  admin_charges : ℚ
  edli_charges : ℚ
  total_employer_contribution : ℚ
  total_pf_contribution : ℚ
deriving DecidableEq, Repr

/-- `PayrollCalculator.calculate_provident_fund`: all five rates apply to
`min(base_salary, salary_ceiling)`; each displayed component is rounded to 2
decimals; the two totals are single roundings of the unrounded sums. -/
def calculate_provident_fund (pf_data : PFData) (base_salary : ℚ) : PFResult :=
  let pf_applicable_salary := min base_salary pf_data.salary_ceiling
  let employee_contribution := pf_applicable_salary * (pf_data.employee_contribution_rate / 100)
  let employer_epf := pf_applicable_salary * (pf_data.employer_epf_rate / 100)
  let employer_pension := pf_applicable_salary * (pf_data.employer_pension_rate / 100)
  let admin_charges := pf_applicable_salary * (pf_data.admin_charges_rate / 100)
  let edli_charges := pf_applicable_salary * (pf_data.edli_rate / 100)
  { employee_contribution := round2 employee_contribution
    employer_epf_contribution := round2 employer_epf
    employer_pension_contribution := round2 employer_pension
    admin_charges := round2 admin_charges
    edli_charges := round2 edli_charges
    total_employer_contribution :=
      round2 (employer_epf + employer_pension + admin_charges + edli_charges)
    total_pf_contribution :=
      round2 (employee_contribution + employer_epf + employer_pension + admin_charges + edli_charges) }

/-- The `esi` section of a state's rule table (the fields the calculator reads). -/
structure ESIData where
  income_threshold : ℚ
  employee_contribution_rate : ℚ
  employer_contribution_rate : ℚ
deriving DecidableEq, Repr

/-- The dictionary returned by `calculate_esi`. -/
structure ESIResult where
  applicable : Bool
  employee_contribution : ℚ
  employer_contribution : ℚ
  total_contribution : ℚ
deriving DecidableEq, Repr

/-- `PayrollCalculator.calculate_esi`: applicable only when the gross salary is
at or below the income threshold; rates apply to the full uncapped gross. -/
def calculate_esi (esi_data : ESIData) (gross_salary : ℚ) : ESIResult :=
  if gross_salary ≤ esi_data.income_threshold then
    let employee_contribution := gross_salary * (esi_data.employee_contribution_rate / 100)
    let employer_contribution := gross_salary * (esi_data.employer_contribution_rate / 100)
    { applicable := true
      employee_contribution := round2 employee_contribution
      employer_contribution := round2 employer_contribution
      total_contribution := round2 (employee_contribution + employer_contribution) }
  else
    { applicable := false
      employee_contribution := 0
      employer_contribution := 0
      total_contribution := 0 }

/-- The `labour_welfare_fund` section of a state's rule table. -/
structure LWFData where
  employee_contribution : ℚ
  employer_contribution : ℚ
  payment_frequency : String
deriving DecidableEq, Repr

/-- The dictionary returned by `calculate_labour_welfare_fund`. -/
structure LWFResult where
  employee_contribution : ℚ
  employer_contribution : ℚ
  total_contribution : ℚ
  payment_frequency : String
deriving DecidableEq, Repr

/-- `PayrollCalculator.calculate_labour_welfare_fund`: the fixed amounts are
normalized to a monthly equivalent by the payment frequency, then rounded. -/
def calculate_labour_welfare_fund (lwf_data : LWFData) : LWFResult :=
  let employee_contribution :=
    if lwf_data.payment_frequency = "semi-annual" then lwf_data.employee_contribution / 6
    else if lwf_data.payment_frequency = "annual" then lwf_data.employee_contribution / 12
    else lwf_data.employee_contribution
  let employer_contribution :=
    if lwf_data.payment_frequency = "semi-annual" then lwf_data.employer_contribution / 6
    else if lwf_data.payment_frequency = "annual" then lwf_data.employer_contribution / 12
    else lwf_data.employer_contribution
  { employee_contribution := round2 employee_contribution
    employer_contribution := round2 employer_contribution
    total_contribution := round2 (employee_contribution + employer_contribution)
    payment_frequency := lwf_data.payment_frequency }

/-- A state's full rule table (the fields `calculate_net_salary` reads). -/
structure StateData where
  state_name : String
  professional_tax : PTData
  provident_fund : PFData
  esi : ESIData
  labour_welfare_fund : LWFData
deriving DecidableEq, Repr

/-- The `deductions` sub-dictionary of the monthly and annual employee views. -/
structure Deductions where
  professional_tax : ℚ
  pf_contribution : ℚ
  esi_contribution : ℚ
  labour_welfare_fund : ℚ
  total_deductions : ℚ
deriving DecidableEq, Repr

/-- One employee-side view (monthly or annual) in the salary breakdown. -/
structure EmployeeView where
  base_salary : ℚ
  benefits : List (String × ℚ)
  gross_salary : ℚ
  deductions : Deductions
  net_salary : ℚ
deriving DecidableEq, Repr

/-- The `pf_details` sub-dictionary of an employer-side view. -/
structure EmployerPFView where
  epf_contribution : ℚ
  pension_contribution : ℚ
  admin_charges : ℚ
  edli_charges : ℚ
deriving DecidableEq, Repr

/-- One employer-side view (monthly or annual) in the salary breakdown. -/
structure EmployerView where
  pf_details : EmployerPFView
  esi_contribution : ℚ
  labour_welfare_fund : ℚ
  total_contributions : ℚ
deriving DecidableEq, Repr

/-- The CTC reconciliation record of the salary breakdown. -/
structure CTCRecord where
  provided : ℚ
  calculated : ℚ
  difference : ℚ
deriving DecidableEq, Repr

/-- The compliance summary of the salary breakdown. -/
structure Compliance where
  state : String
  esi_applicable : Bool
  professional_tax_applicable : Bool
deriving DecidableEq, Repr

/-- The full nested dictionary returned by `calculate_net_salary`. -/
structure SalaryBreakdown where
  monthly : EmployeeView
  annual : EmployeeView
  employer_monthly : EmployerView
  employer_annual : EmployerView
  ctc : CTCRecord
  compliance : Compliance
deriving DecidableEq, Repr

/-- `PayrollCalculator.calculate_net_salary`: orchestrates professional tax
(on gross), PF (on base), ESI (on gross) and LWF, then assembles the monthly
and annual views, the CTC reconciliation record and the compliance flags. -/
def calculate_net_salary (sd : StateData) (ctc base_salary : ℚ)
    (benefits : List (String × ℚ)) : SalaryBreakdown :=
  let total_benefits := (benefits.map Prod.snd).sum
  let gross_salary := base_salary + total_benefits
  let professional_tax := calculate_professional_tax sd.professional_tax gross_salary
  let pf_details := calculate_provident_fund sd.provident_fund base_salary
  let esi_details := calculate_esi sd.esi gross_salary
  let lwf_details := calculate_labour_welfare_fund sd.labour_welfare_fund
  let total_deductions :=
    professional_tax + pf_details.employee_contribution +
      esi_details.employee_contribution + lwf_details.employee_contribution
  let net_salary := gross_salary - total_deductions
  let employer_contributions :=
    pf_details.total_employer_contribution + esi_details.employer_contribution +
      lwf_details.employer_contribution
  let calculated_ctc := (gross_salary + employer_contributions) * 12
  let ctc_difference := |calculated_ctc - ctc|
  let annual_professional_tax :=
    min (professional_tax * 12) sd.professional_tax.annual_ceiling
  { monthly :=
      { base_salary := base_salary
        benefits := benefits
        gross_salary := gross_salary
        deductions :=
          { professional_tax := professional_tax
            pf_contribution := pf_details.employee_contribution
            esi_contribution := esi_details.employee_contribution
            labour_welfare_fund := lwf_details.employee_contribution
            total_deductions := total_deductions }
        net_salary := net_salary }
    annual :=
      { base_salary := base_salary * 12
        benefits := benefits.map (fun kv => (kv.1, kv.2 * 12))
        gross_salary := gross_salary * 12
        deductions :=
          { professional_tax := annual_professional_tax
            pf_contribution := pf_details.employee_contribution * 12
            esi_contribution := esi_details.employee_contribution * 12
            labour_welfare_fund := lwf_details.employee_contribution * 12
            total_deductions :=
              annual_professional_tax + pf_details.employee_contribution * 12 +
                esi_details.employee_contribution * 12 + lwf_details.employee_contribution * 12 }
        net_salary :=
          gross_salary * 12 - annual_professional_tax -
            pf_details.employee_contribution * 12 - esi_details.employee_contribution * 12 -
            lwf_details.employee_contribution * 12 }
    employer_monthly :=
      { pf_details :=
          { epf_contribution := pf_details.employer_epf_contribution
            pension_contribution := pf_details.employer_pension_contribution
            admin_charges := pf_details.admin_charges
            edli_charges := pf_details.edli_charges }
        esi_contribution := esi_details.employer_contribution
        labour_welfare_fund := lwf_details.employer_contribution
        total_contributions := employer_contributions }
    employer_annual :=
      { pf_details :=
          { epf_contribution := pf_details.employer_epf_contribution * 12
            pension_contribution := pf_details.employer_pension_contribution * 12
            admin_charges := pf_details.admin_charges * 12
            edli_charges := pf_details.edli_charges * 12 }
        esi_contribution := esi_details.employer_contribution * 12
        labour_welfare_fund := lwf_details.employer_contribution * 12
        total_contributions := employer_contributions * 12 }
    ctc :=
      { provided := ctc
        calculated := calculated_ctc
        difference := ctc_difference }
    compliance :=
      { state := sd.state_name
        esi_applicable := esi_details.applicable
        professional_tax_applicable := decide (professional_tax > 0) } }

/-- The error kinds raised by `PayrollValidator` (each `ValueError` message
becomes one constructor). -/
inductive ValErr where
  | invalidLocation (location : String)
  | nonPositiveCtc
  | nonPositiveBaseSalary
  | negativeBenefit (name : String)
  | grossExceedsCtc (gross monthly_ctc : ℚ)
  | missingField (field : String)
deriving DecidableEq, Repr

/-- Python's `str.lower()`, modelled as lowercasing each character. -/
def str_lower (s : String) : String := ⟨s.data.map Char.toLower⟩

/-- `PayrollValidator.validate_location`: lowercase the location and require it
to be in the allow-list of states. -/
def validate_location (allowed_states : List String) (location : String) :
    Except ValErr String :=
  let location := str_lower location
  if location ∈ allowed_states then Except.ok location
  else Except.error (ValErr.invalidLocation location)

/-- `PayrollValidator.validate_salary`: reject non-positive CTC, then
non-positive base salary, then the first negative benefit, then a gross salary
exceeding the monthly CTC by more than the fixed 1-unit tolerance. -/
def validate_salary (ctc base_salary : ℚ) (benefits : List (String × ℚ)) :
    Except ValErr Bool :=
  if ctc ≤ 0 then Except.error ValErr.nonPositiveCtc
  else if base_salary ≤ 0 then Except.error ValErr.nonPositiveBaseSalary
  else
    match benefits.find? (fun b => decide (b.2 < 0)) with
    | some b => Except.error (ValErr.negativeBenefit b.1)
    | none =>
      let monthly_ctc := ctc / 12
      let total_benefits := (benefits.map Prod.snd).sum
      let gross_salary := base_salary + total_benefits
      if gross_salary > monthly_ctc + 1 then
        Except.error (ValErr.grossExceedsCtc gross_salary monthly_ctc)
      else Except.ok true

/-- The employee dictionary handed to `validate_employee_data`; `none` models
an absent key. -/
structure EmployeeData where
  ctc : Option ℚ
  base_salary : Option ℚ
  location : Option String
  benefits : Option (List (String × ℚ))
deriving DecidableEq, Repr

/-- `PayrollValidator.validate_employee_data`: require `ctc`, `base_salary`,
`location` in that order, default `benefits` to the empty mapping, validate the
location then the salary, and return the input with the location normalized. -/
def validate_employee_data (allowed_states : List String) (employee_data : EmployeeData) :
    Except ValErr EmployeeData :=
  match employee_data.ctc with
  | none => Except.error (ValErr.missingField "ctc")
  | some ctc =>
    match employee_data.base_salary with
    | none => Except.error (ValErr.missingField "base_salary")
    | some base_salary =>
      match employee_data.location with
      | none => Except.error (ValErr.missingField "location")
      | some location =>
        let benefits := employee_data.benefits.getD []
        match validate_location allowed_states location with
        | Except.error e => Except.error e
        | Except.ok normalized_location =>
          match validate_salary ctc base_salary benefits with
          | Except.error e => Except.error e
          | Except.ok _ => Except.ok { employee_data with location := some normalized_location }

/-! Sample rule table: the Maharashtra data seeded in the repository's test
fixture (`tests/test_calculations.py`), with rates written as exact rationals. -/

/-- The sample professional-tax slab table. -/
def mahaSlabs : List Slab :=
  [⟨0, some 10000, 0⟩, ⟨10001, some 15000, 175⟩, ⟨15001, some 20000, 200⟩, ⟨20001, none, 300⟩]

/-- The sample professional-tax rule section. -/
def mahaPT : PTData := { monthly_slabs := mahaSlabs, annual_ceiling := 2500 }

/-- The sample ESI rule section (rates 0.75% and 3.25%, threshold 21000). -/
def mahaESI : ESIData :=
  { income_threshold := 21000
    employee_contribution_rate := 3/4
    employer_contribution_rate := 13/4 }

/-- The full sample state rule table. -/
def mahaData : StateData :=
  { state_name := "Maharashtra"
    professional_tax := mahaPT
    provident_fund :=
      { salary_ceiling := 15000
        employee_contribution_rate := 12
        employer_epf_rate := 367/100
        employer_pension_rate := 833/100
        admin_charges_rate := 1/2
        edli_rate := 1/2 }
    esi := mahaESI
    labour_welfare_fund :=
      { employee_contribution := 6
        employer_contribution := 12
        payment_frequency := "semi-annual" } }

/-! Well-formedness of slab tables, following the spec's wording: contiguous,
non-overlapping slabs sorted ascending by `min`, at most one open-ended slab
and only in final position. -/

/-- Two slabs are adjacent when the second starts one unit above where the
first ends. -/
def SlabAdj (a b : Slab) : Prop := ∃ m, a.max = some m ∧ b.min = m + 1

/-- A slab table is well-formed when consecutive slabs are adjacent (hence
contiguous, non-overlapping and sorted ascending by `min`, with an open-ended
slab possible only in final position) and each closed slab has `min ≤ max`. -/
def WellFormed (slabs : List Slab) : Prop :=
  List.Chain' SlabAdj slabs ∧ ∀ sl ∈ slabs, ∀ m, sl.max = some m → sl.min ≤ m

/-- A rational that is an integer (a whole number of currency units). -/
def IsInt (q : ℚ) : Prop := ∃ n : ℤ, q = (n : ℚ)

/-- A slab table covers every integer salary from `lo` upward: each slab starts
exactly at the running lower bound, closed slabs have integer upper bounds, and
the final slab is open-ended. -/
inductive Covers : ℚ → List Slab → Prop where
  | lastOpen (lo tax : ℚ) : Covers lo [⟨lo, none, tax⟩]
  | cons (lo hi tax : ℚ) (rest : List Slab) (hle : lo ≤ hi) (hint : IsInt hi)
      (hrest : Covers (hi + 1) rest) : Covers lo (⟨lo, some hi, tax⟩ :: rest)

lemma covers_min_le {lo : ℚ} {slabs : List Slab} (h : Covers lo slabs) :
    ∀ sl ∈ slabs, lo ≤ sl.min := by
  induction h with
  | lastOpen lo tax =>
    intro sl hmem
    simp only [List.mem_singleton] at hmem
    simp [hmem]
  | cons lo hi tax rest hle hint hrest ih =>
    intro sl hmem
    rcases List.mem_cons.mp hmem with hhd | htl
    · simp [hhd]
    · exact le_trans (le_trans hle (by linarith)) (ih sl htl)

lemma slabMatch_false_of_lt {s : ℚ} {sl : Slab} (h : s < sl.min) :
    slabMatch s sl = false := by
  unfold slabMatch
  cases sl.max with
  | none => simpa using not_le.mpr h
  | some m => simp [not_le.mpr h]

lemma covers_no_match {lo s : ℚ} {slabs : List Slab} (h : Covers lo slabs)
    (hs : s < lo) : ∀ sl ∈ slabs, slabMatch s sl = false := by
  intro sl hmem
  exact slabMatch_false_of_lt (lt_of_lt_of_le hs (covers_min_le h sl hmem))

lemma int_add_one_le {a b : ℚ} (ha : IsInt a) (hb : IsInt b) (h : b < a) :
    b + 1 ≤ a := by
  obtain ⟨m, rfl⟩ := ha
  obtain ⟨n, rfl⟩ := hb
  have hmn : n < m := by exact_mod_cast h
  have h1 : n + 1 ≤ m := hmn
  exact_mod_cast h1

lemma covers_find?_mem {s lo : ℚ} {slabs : List Slab} (h : Covers lo slabs)
    (hs : IsInt s) : lo ≤ s →
    ∃ sl ∈ slabs, slabs.find? (slabMatch s) = some sl ∧ slabMatch s sl = true := by
  induction h with
  | lastOpen lo tax =>
    intro hlo
    have hm : slabMatch s ⟨lo, none, tax⟩ = true := by
      simp [slabMatch, hlo]
    exact ⟨⟨lo, none, tax⟩, List.mem_singleton_self _,
      List.find?_cons_of_pos _ hm, hm⟩
  | cons lo hi tax rest hle hint hrest ih =>
    intro hlo
    by_cases hshi : s ≤ hi
    · have hm : slabMatch s ⟨lo, some hi, tax⟩ = true := by
        simp [slabMatch, hlo, hshi]
      exact ⟨⟨lo, some hi, tax⟩, List.mem_cons_self _ _,
        List.find?_cons_of_pos _ hm, hm⟩
    · have hm : slabMatch s ⟨lo, some hi, tax⟩ = false := by
        simp [slabMatch, hshi]
      have hnext : hi + 1 ≤ s := int_add_one_le hs hint (not_le.mp hshi)
      obtain ⟨sl, hmem, hfind, hmatch⟩ := ih hnext
      refine ⟨sl, List.mem_cons_of_mem _ hmem, ?_, hmatch⟩
      rw [List.find?_cons_of_neg _ (by simp [hm]), hfind]

lemma covers_slab_scan_mono {lo : ℚ} {slabs : List Slab} (h : Covers lo slabs)
    {s t : ℚ} (hs : IsInt s) (ht : IsInt t) (hst : s ≤ t) :
    List.Pairwise (fun a b => a.tax ≤ b.tax) slabs → lo ≤ s →
    slab_scan slabs s ≤ slab_scan slabs t := by
  induction h with
  | lastOpen lo tax =>
    intro _ hlo
    have hm1 : slabMatch s ⟨lo, none, tax⟩ = true := by simp [slabMatch, hlo]
    have hm2 : slabMatch t ⟨lo, none, tax⟩ = true := by
      simp [slabMatch, le_trans hlo hst]
    simp [slab_scan, List.find?_cons_of_pos _ hm1, List.find?_cons_of_pos _ hm2]
  | cons lo hi tax rest hle hint hrest ih =>
    intro htax hlo
    obtain ⟨hhead, htail⟩ := List.pairwise_cons.mp htax
    by_cases hthi : t ≤ hi
    · have hshi : s ≤ hi := le_trans hst hthi
      have hm1 : slabMatch s ⟨lo, some hi, tax⟩ = true := by
        simp [slabMatch, hlo, hshi]
      have hm2 : slabMatch t ⟨lo, some hi, tax⟩ = true := by
        simp [slabMatch, le_trans hlo hst, hthi]
      simp [slab_scan, List.find?_cons_of_pos _ hm1, List.find?_cons_of_pos _ hm2]
    · have hm2 : slabMatch t ⟨lo, some hi, tax⟩ = false := by
        simp [slabMatch, hthi]
      have htnext : hi + 1 ≤ t := int_add_one_le ht hint (not_le.mp hthi)
      by_cases hshi : s ≤ hi
      · have hm1 : slabMatch s ⟨lo, some hi, tax⟩ = true := by
          simp [slabMatch, hlo, hshi]
        obtain ⟨sl, hmem, hfind, _⟩ := covers_find?_mem hrest ht htnext
        have h1 : slab_scan (⟨lo, some hi, tax⟩ :: rest) s = tax := by
          simp [slab_scan, List.find?_cons_of_pos _ hm1]
        have h2 : slab_scan (⟨lo, some hi, tax⟩ :: rest) t = sl.tax := by
          unfold slab_scan
          rw [List.find?_cons_of_neg _ (by simp [hm2]), hfind]
        rw [h1, h2]
        exact hhead sl hmem
      · have hm1 : slabMatch s ⟨lo, some hi, tax⟩ = false := by
          simp [slabMatch, hshi]
        have hsnext : hi + 1 ≤ s := int_add_one_le hs hint (not_le.mp hshi)
        have h1 : slab_scan (⟨lo, some hi, tax⟩ :: rest) s = slab_scan rest s := by
          unfold slab_scan
          rw [List.find?_cons_of_neg _ (by simp [hm1])]
        have h2 : slab_scan (⟨lo, some hi, tax⟩ :: rest) t = slab_scan rest t := by
          unfold slab_scan
          rw [List.find?_cons_of_neg _ (by simp [hm2])]
        rw [h1, h2]
        exact ih htail hsnext

lemma covers_filter_length {s lo : ℚ} {slabs : List Slab} (h : Covers lo slabs)
    (hs : IsInt s) : lo ≤ s → (slabs.filter (slabMatch s)).length = 1 := by
  induction h with
  | lastOpen lo tax =>
    intro hlo
    have hm : slabMatch s ⟨lo, none, tax⟩ = true := by simp [slabMatch, hlo]
    simp [List.filter_cons_of_pos hm]
  | cons lo hi tax rest hle hint hrest ih =>
    intro hlo
    by_cases hshi : s ≤ hi
    · have hm : slabMatch s ⟨lo, some hi, tax⟩ = true := by
        simp [slabMatch, hlo, hshi]
      have hnil : rest.filter (slabMatch s) = [] := by
        rw [List.filter_eq_nil_iff]
        intro sl hmem
        simp [covers_no_match hrest (by linarith) sl hmem]
      simp [List.filter_cons_of_pos hm, hnil]
    · have hm : slabMatch s ⟨lo, some hi, tax⟩ = false := by
        simp [slabMatch, hshi]
      have hsnext : hi + 1 ≤ s := int_add_one_le hs hint (not_le.mp hshi)
      rw [List.filter_cons_of_neg (by simp [hm])]
      exact ih hsnext

/-- A well-formed slab table whose tax amounts decrease: `[0,10] → 5`,
`[11, ∞) → 0`. -/
def ptDesc : PTData := { monthly_slabs := [⟨0, some 10, 5⟩, ⟨11, none, 0⟩], annual_ceiling := 2500 }

/-- C3 (counterexample): the step-function claim fails for some well-formed
tables. On the well-formed table `ptDesc`, whose tax amounts are not
non-decreasing, the computed tax drops from 5 at salary 10 to 0 at salary 20,
so `calculate_professional_tax` is not monotonically non-decreasing; and on the
sample table the non-integer salary 10000.5 falls in the gap between two
adjacent slabs, so no slab (rather than exactly one) matches it. -/
theorem claim_C3_counterexample :
    WellFormed ptDesc.monthly_slabs ∧
    calculate_professional_tax ptDesc 10 = 5 ∧
    calculate_professional_tax ptDesc 20 = 0 ∧
    ¬ calculate_professional_tax ptDesc 10 ≤ calculate_professional_tax ptDesc 20 ∧
    WellFormed mahaPT.monthly_slabs ∧
    (mahaPT.monthly_slabs.filter (slabMatch (20001/2))).length = 0 ∧
    ¬ (∀ pt : PTData, WellFormed pt.monthly_slabs →
        (∀ s t : ℚ, s ≤ t →
          calculate_professional_tax pt s ≤ calculate_professional_tax pt t) ∧
        (∀ s : ℚ, ∃ sl ∈ pt.monthly_slabs, calculate_professional_tax pt s = sl.tax) ∧
        (∀ s : ℚ, (pt.monthly_slabs.filter (slabMatch s)).length = 1)) := by
  have hwfDesc : WellFormed ptDesc.monthly_slabs := by
    constructor
    · simp only [ptDesc, List.chain'_cons, List.chain'_singleton, and_true]
      exact ⟨10, rfl, by norm_num⟩
    · intro sl hmem m hm
      simp only [ptDesc, List.mem_cons, List.not_mem_nil, or_false] at hmem
      rcases hmem with h | h <;> subst h <;> simp_all <;> linarith
  have hwfMaha : WellFormed mahaPT.monthly_slabs := by
    constructor
    · simp only [mahaPT, mahaSlabs, List.chain'_cons, List.chain'_singleton, and_true]
      refine ⟨⟨10000, rfl, by norm_num⟩, ⟨15000, rfl, by norm_num⟩, ⟨20000, rfl, by norm_num⟩⟩
    · intro sl hmem m hm
      simp only [mahaPT, mahaSlabs, List.mem_cons, List.not_mem_nil, or_false] at hmem
      rcases hmem with h | h | h | h <;> subst h <;> simp_all <;> linarith
  have h10 : calculate_professional_tax ptDesc 10 = 5 := by
    norm_num [calculate_professional_tax, slab_scan, ptDesc, List.find?, slabMatch]
  have h20 : calculate_professional_tax ptDesc 20 = 0 := by
    norm_num [calculate_professional_tax, slab_scan, ptDesc, List.find?, slabMatch]
  have hgap : (mahaPT.monthly_slabs.filter (slabMatch (20001/2))).length = 0 := by
    norm_num [mahaPT, mahaSlabs, List.filter, slabMatch]
  refine ⟨hwfDesc, h10, h20, by rw [h10, h20]; norm_num, hwfMaha, hgap, ?_⟩
  intro hclaim
  have hmono := (hclaim ptDesc hwfDesc).1 10 20 (by norm_num)
  rw [h10, h20] at hmono
  norm_num at hmono

/-- C3 (amended): for a well-formed slab table that covers every salary from
`lo` upward (each slab starting exactly one unit above the previous closed
slab's integer upper bound, final slab open-ended) and whose tax amounts are
non-decreasing along the table, `calculate_professional_tax` restricted to
integer salaries at or above `lo` is monotonically non-decreasing, always
returns the tax of a slab of the table (the one that matches), and exactly one
slab matches each such salary. -/
theorem claim_C3_amended (pt : PTData) (lo : ℚ) (hcov : Covers lo pt.monthly_slabs)
    (htax : List.Pairwise (fun a b => a.tax ≤ b.tax) pt.monthly_slabs)
    (s t : ℚ) (hs : IsInt s) (ht : IsInt t) (hlo : lo ≤ s) (hst : s ≤ t) :
    calculate_professional_tax pt s ≤ calculate_professional_tax pt t ∧
    (∃ sl ∈ pt.monthly_slabs, calculate_professional_tax pt s = sl.tax ∧
      slabMatch s sl = true) ∧
    (pt.monthly_slabs.filter (slabMatch s)).length = 1 := by
  refine ⟨covers_slab_scan_mono hcov hs ht hst htax hlo, ?_, covers_filter_length hcov hs hlo⟩
  obtain ⟨sl, hmem, hfind, hmatch⟩ := covers_find?_mem hcov hs hlo
  refine ⟨sl, hmem, ?_, hmatch⟩
  unfold calculate_professional_tax slab_scan
  rw [hfind]

/-- The sample table covers all integer salaries from 0 up. -/
lemma covers_mahaSlabs : Covers 0 mahaSlabs := by
  have h4 : Covers 20001 [⟨20001, none, 300⟩] := Covers.lastOpen 20001 300
  have h3 : Covers 15001 [⟨15001, some 20000, 200⟩, ⟨20001, none, 300⟩] := by
    refine Covers.cons 15001 20000 200 _ (by norm_num) ⟨20000, by norm_num⟩ ?_
    rw [show (20000 : ℚ) + 1 = 20001 by norm_num]
    exact h4
  have h2 : Covers 10001 (mahaSlabs.drop 1) := by
    refine Covers.cons 10001 15000 175 _ (by norm_num) ⟨15000, by norm_num⟩ ?_
    rw [show (15000 : ℚ) + 1 = 15001 by norm_num]
    exact h3
  refine Covers.cons 0 10000 0 _ (by norm_num) ⟨10000, by norm_num⟩ ?_
  rw [show (10000 : ℚ) + 1 = 10001 by norm_num]
  exact h2

/-- Witness for the amended C3 at the sample table and salaries 12000 ≤ 18000. -/
theorem claim_C3_amended_witness :
    calculate_professional_tax mahaPT 12000 ≤ calculate_professional_tax mahaPT 18000 ∧
    (∃ sl ∈ mahaPT.monthly_slabs, calculate_professional_tax mahaPT 12000 = sl.tax ∧
      slabMatch 12000 sl = true) ∧
    (mahaPT.monthly_slabs.filter (slabMatch 12000)).length = 1 :=
  claim_C3_amended mahaPT 0 covers_mahaSlabs (by decide)
    12000 18000 ⟨12000, by norm_num⟩ ⟨18000, by norm_num⟩ (by norm_num) (by norm_num)

/-- C4: `calculate_professional_tax` returns 0 when no slab matches, returns
the tax of the first matching slab in scan order, and on the sample table
produces the six boundary values 0, 0, 175, 200, 300, 300 at salaries 9000,
10000, 10001, 20000, 20001 and 50000. -/
theorem claim_C4 (pt : PTData) (s : ℚ) :
    ((∀ sl ∈ pt.monthly_slabs, slabMatch s sl = false) →
      calculate_professional_tax pt s = 0) ∧
    (∀ pre mid post, pt.monthly_slabs = pre ++ mid :: post →
      (∀ sl ∈ pre, slabMatch s sl = false) → slabMatch s mid = true →
      calculate_professional_tax pt s = mid.tax) ∧
    (calculate_professional_tax mahaPT 9000 = 0 ∧
      calculate_professional_tax mahaPT 10000 = 0 ∧
      calculate_professional_tax mahaPT 10001 = 175 ∧
      calculate_professional_tax mahaPT 20000 = 200 ∧
      calculate_professional_tax mahaPT 20001 = 300 ∧
      calculate_professional_tax mahaPT 50000 = 300) := by
  refine ⟨?_, ?_, by decide, by decide, by decide, by decide, by decide, by decide⟩
  · intro hnone
    unfold calculate_professional_tax slab_scan
    rw [List.find?_eq_none.mpr (by intro sl hmem; simp [hnone sl hmem])]
  · intro pre mid post hsplit hpre hmid
    unfold calculate_professional_tax slab_scan
    rw [hsplit, List.find?_append,
      List.find?_eq_none.mpr (by intro sl hmem; simp [hpre sl hmem]),
      Option.none_or, List.find?_cons_of_pos _ hmid]

/-- Witness for C4: the first-match clause applied at the sample table split
around its second slab, at salary 12000. -/
theorem claim_C4_witness : calculate_professional_tax mahaPT 12000 = 175 :=
  (claim_C4 mahaPT 12000).2.1 [⟨0, some 10000, 0⟩] ⟨10001, some 15000, 175⟩
    [⟨15001, some 20000, 200⟩, ⟨20001, none, 300⟩] rfl (by decide) (by decide)

/-- A PF rule table whose five rates are all 0.4%, with ceiling 15000. Each
component on base salary 1 is 0.004, which rounds to 0.00, while their sum
0.016 rounds to 0.02. -/
def pfLowRates : PFData := ⟨15000, 2/5, 2/5, 2/5, 2/5, 2/5⟩

/-- C1 (counterexample): the totals returned by `calculate_provident_fund` are
not the sums of the individually-rounded components. With all five rates at
0.4% and base salary 1, every rounded component is 0, yet
`total_employer_contribution` and `total_pf_contribution` are 0.02 and 0.02:
the code rounds the sum of the unrounded components once, after summation. -/
theorem claim_C1_counterexample :
    (calculate_provident_fund pfLowRates 1).employer_epf_contribution = 0 ∧
    (calculate_provident_fund pfLowRates 1).employer_pension_contribution = 0 ∧
    (calculate_provident_fund pfLowRates 1).admin_charges = 0 ∧
    (calculate_provident_fund pfLowRates 1).edli_charges = 0 ∧
    (calculate_provident_fund pfLowRates 1).employee_contribution = 0 ∧
    (calculate_provident_fund pfLowRates 1).total_employer_contribution = 1/50 ∧
    (calculate_provident_fund pfLowRates 1).total_pf_contribution = 1/50 ∧
    (calculate_provident_fund pfLowRates 1).total_employer_contribution ≠
      (calculate_provident_fund pfLowRates 1).employer_epf_contribution +
        (calculate_provident_fund pfLowRates 1).employer_pension_contribution +
        (calculate_provident_fund pfLowRates 1).admin_charges +
        (calculate_provident_fund pfLowRates 1).edli_charges ∧
    (calculate_provident_fund pfLowRates 1).total_pf_contribution ≠
      (calculate_provident_fund pfLowRates 1).employee_contribution +
        (calculate_provident_fund pfLowRates 1).employer_epf_contribution +
        (calculate_provident_fund pfLowRates 1).employer_pension_contribution +
        (calculate_provident_fund pfLowRates 1).admin_charges +
        (calculate_provident_fund pfLowRates 1).edli_charges := by
  norm_num [calculate_provident_fund, pfLowRates, round2, roundHalfEven, min_def]

/-- C1 (amended): each of the five PF components applies its rate to
`min(baseSalary, salaryCeiling)` and is rounded to 2 decimals independently,
while `total_employer_contribution` and `total_pf_contribution` are single
roundings of the sums of the unrounded components (summation happens before
the one rounding of each total, not after per-component rounding). -/
theorem claim_C1_amended (pf_data : PFData) (base_salary : ℚ) :
    (calculate_provident_fund pf_data base_salary).employee_contribution =
      round2 (min base_salary pf_data.salary_ceiling * (pf_data.employee_contribution_rate / 100)) ∧
    (calculate_provident_fund pf_data base_salary).employer_epf_contribution =
      round2 (min base_salary pf_data.salary_ceiling * (pf_data.employer_epf_rate / 100)) ∧
    (calculate_provident_fund pf_data base_salary).employer_pension_contribution =
      round2 (min base_salary pf_data.salary_ceiling * (pf_data.employer_pension_rate / 100)) ∧
    (calculate_provident_fund pf_data base_salary).admin_charges =
      round2 (min base_salary pf_data.salary_ceiling * (pf_data.admin_charges_rate / 100)) ∧
    (calculate_provident_fund pf_data base_salary).edli_charges =
      round2 (min base_salary pf_data.salary_ceiling * (pf_data.edli_rate / 100)) ∧
    (calculate_provident_fund pf_data base_salary).total_employer_contribution =
      round2 (min base_salary pf_data.salary_ceiling * (pf_data.employer_epf_rate / 100) +
        min base_salary pf_data.salary_ceiling * (pf_data.employer_pension_rate / 100) +
        min base_salary pf_data.salary_ceiling * (pf_data.admin_charges_rate / 100) +
        min base_salary pf_data.salary_ceiling * (pf_data.edli_rate / 100)) ∧
    (calculate_provident_fund pf_data base_salary).total_pf_contribution =
      round2 (min base_salary pf_data.salary_ceiling * (pf_data.employee_contribution_rate / 100) +
        min base_salary pf_data.salary_ceiling * (pf_data.employer_epf_rate / 100) +
        min base_salary pf_data.salary_ceiling * (pf_data.employer_pension_rate / 100) +
        min base_salary pf_data.salary_ceiling * (pf_data.admin_charges_rate / 100) +
        min base_salary pf_data.salary_ceiling * (pf_data.edli_rate / 100)) :=
  ⟨rfl, rfl, rfl, rfl, rfl, rfl, rfl⟩

/-- C5: ESI is applicable with per-component-rounded contributions on the full
uncapped gross exactly when the gross salary is at or below the income
threshold (inclusive); strictly above the threshold every contribution figure
is exactly 0 and the applicable flag is false. -/
theorem claim_C5 (esi_data : ESIData) (gross_salary : ℚ) :
    (gross_salary ≤ esi_data.income_threshold →
      (calculate_esi esi_data gross_salary).applicable = true ∧
      (calculate_esi esi_data gross_salary).employee_contribution =
        round2 (gross_salary * (esi_data.employee_contribution_rate / 100)) ∧
      (calculate_esi esi_data gross_salary).employer_contribution =
        round2 (gross_salary * (esi_data.employer_contribution_rate / 100))) ∧
    (esi_data.income_threshold < gross_salary →
      calculate_esi esi_data gross_salary =
        { applicable := false, employee_contribution := 0, employer_contribution := 0,
          total_contribution := 0 }) ∧
    ((calculate_esi esi_data gross_salary).applicable = true ↔
      gross_salary ≤ esi_data.income_threshold) := by
  by_cases h : gross_salary ≤ esi_data.income_threshold
  · refine ⟨fun _ => ?_, fun hgt => absurd h (not_le.mpr hgt), ?_⟩
    · unfold calculate_esi
      rw [if_pos h]
      exact ⟨rfl, rfl, rfl⟩
    · unfold calculate_esi
      rw [if_pos h]
      simp [h]
  · refine ⟨fun hle => absurd hle h, fun _ => ?_, ?_⟩
    · unfold calculate_esi
      rw [if_neg h]
    · unfold calculate_esi
      rw [if_neg h]
      simp [h]

/-- Witness for C5 at the sample threshold 21000: applicable at the threshold,
fully inapplicable one unit above it. -/
theorem claim_C5_witness :
    (calculate_esi mahaESI 21000).applicable = true ∧
    calculate_esi mahaESI 21001 =
      { applicable := false, employee_contribution := 0, employer_contribution := 0,
        total_contribution := 0 } :=
  ⟨((claim_C5 mahaESI 21000).1 (by norm_num [mahaESI])).1,
    (claim_C5 mahaESI 21001).2.1 (by norm_num [mahaESI])⟩

/-- C9: `calculate_labour_welfare_fund` takes no salary input; it divides the
rule table's fixed amounts by 6 (semi-annual) or 12 (annual), rounds each to 2
decimals, and returns them with their total and the payment frequency. An
annual employer amount of 240 yields 20.00 and a semi-annual amount of 12
yields 2.00. -/
theorem claim_C9 (lwf_data : LWFData) :
    (lwf_data.payment_frequency = "semi-annual" →
      calculate_labour_welfare_fund lwf_data =
        { employee_contribution := round2 (lwf_data.employee_contribution / 6)
          employer_contribution := round2 (lwf_data.employer_contribution / 6)
          total_contribution :=
            round2 (lwf_data.employee_contribution / 6 + lwf_data.employer_contribution / 6)
          payment_frequency := lwf_data.payment_frequency }) ∧
    (lwf_data.payment_frequency = "annual" →
      calculate_labour_welfare_fund lwf_data =
        { employee_contribution := round2 (lwf_data.employee_contribution / 12)
          employer_contribution := round2 (lwf_data.employer_contribution / 12)
          total_contribution :=
            round2 (lwf_data.employee_contribution / 12 + lwf_data.employer_contribution / 12)
          payment_frequency := lwf_data.payment_frequency }) ∧
    (calculate_labour_welfare_fund ⟨6, 240, "annual"⟩).employer_contribution = 20 ∧
    (calculate_labour_welfare_fund ⟨6, 12, "semi-annual"⟩).employer_contribution = 2 := by
  have hne : ¬ ("annual" = "semi-annual") := by decide
  refine ⟨fun h => ?_, fun h => ?_, ?_, ?_⟩
  · unfold calculate_labour_welfare_fund
    rw [h]
    simp
  · unfold calculate_labour_welfare_fund
    rw [h, if_neg hne, if_neg hne]
    simp
  · norm_num [calculate_labour_welfare_fund, if_neg hne, round2, roundHalfEven]
  · norm_num [calculate_labour_welfare_fund, round2, roundHalfEven]

/-- Witness for C9: the semi-annual clause applied to the sample LWF rule
(fixed amounts 6 and 12 at semi-annual frequency). -/
theorem claim_C9_witness :
    calculate_labour_welfare_fund ⟨6, 12, "semi-annual"⟩ =
      { employee_contribution := round2 (6 / 6)
        employer_contribution := round2 (12 / 6)
        total_contribution := round2 ((6 : ℚ) / 6 + 12 / 6)
        payment_frequency := "semi-annual" } :=
  (claim_C9 ⟨6, 12, "semi-annual"⟩).1 rfl

/-- C2 (counterexample): the monthly net salary in the breakdown is not a
value rounded to 2 decimal places. On the sample table with base salary
100.005 and no benefits, the monthly net salary is 86.255, a three-decimal
figure different from its own 2-decimal rounding: the code never rounds
`total_deductions` or `net_salary`. -/
theorem claim_C2_counterexample :
    (calculate_net_salary mahaData 300000 (20001/200) []).monthly.net_salary = 17251/200 ∧
    round2 ((calculate_net_salary mahaData 300000 (20001/200) []).monthly.net_salary) ≠
      (calculate_net_salary mahaData 300000 (20001/200) []).monthly.net_salary := by
  have hnet : (calculate_net_salary mahaData 300000 (20001/200) []).monthly.net_salary =
      17251/200 := by
    norm_num [calculate_net_salary, calculate_professional_tax, slab_scan,
      calculate_provident_fund, calculate_esi, calculate_labour_welfare_fund, mahaData, mahaPT,
      mahaESI, mahaSlabs, List.find?, slabMatch, round2, roundHalfEven, min_def]
  refine ⟨hnet, ?_⟩
  rw [hnet]
  norm_num [round2, roundHalfEven]

/-- C2 (amended): the individual deduction components in the breakdown are
2-decimal roundings computed where each deduction is calculated, but the
monthly and annual `total_deductions` and `net_salary` figures are exact
unrounded sums and differences of those component figures (they carry extra
decimals whenever the gross salary does). -/
theorem claim_C2_amended (sd : StateData) (ctc base_salary : ℚ)
    (benefits : List (String × ℚ)) :
    (calculate_net_salary sd ctc base_salary benefits).monthly.deductions.pf_contribution =
      round2 (min base_salary sd.provident_fund.salary_ceiling *
        (sd.provident_fund.employee_contribution_rate / 100)) ∧
    (calculate_net_salary sd ctc base_salary benefits).monthly.deductions.total_deductions =
      (calculate_net_salary sd ctc base_salary benefits).monthly.deductions.professional_tax +
        (calculate_net_salary sd ctc base_salary benefits).monthly.deductions.pf_contribution +
        (calculate_net_salary sd ctc base_salary benefits).monthly.deductions.esi_contribution +
        (calculate_net_salary sd ctc base_salary benefits).monthly.deductions.labour_welfare_fund ∧
    (calculate_net_salary sd ctc base_salary benefits).monthly.net_salary =
      (calculate_net_salary sd ctc base_salary benefits).monthly.gross_salary -
        (calculate_net_salary sd ctc base_salary benefits).monthly.deductions.total_deductions ∧
    (calculate_net_salary sd ctc base_salary benefits).annual.deductions.total_deductions =
      (calculate_net_salary sd ctc base_salary benefits).annual.deductions.professional_tax +
        (calculate_net_salary sd ctc base_salary benefits).annual.deductions.pf_contribution +
        (calculate_net_salary sd ctc base_salary benefits).annual.deductions.esi_contribution +
        (calculate_net_salary sd ctc base_salary benefits).annual.deductions.labour_welfare_fund ∧
    (calculate_net_salary sd ctc base_salary benefits).annual.net_salary =
      (calculate_net_salary sd ctc base_salary benefits).annual.gross_salary -
        (calculate_net_salary sd ctc base_salary benefits).annual.deductions.total_deductions := by
  refine ⟨rfl, rfl, rfl, rfl, ?_⟩
  show (_ : ℚ) * 12 - _ - _ - _ - _ = _ * 12 - (_ + _ + _ + _)
  ring

/-- C6: the annual professional tax in the breakdown is
`min(monthly tax × 12, annualCeiling)`; the monthly professional-tax figure is
the raw slab-scan result with no ceiling applied; and every other deduction
and contribution annualizes as exactly its monthly figure × 12. -/
theorem claim_C6 (sd : StateData) (ctc base_salary : ℚ)
    (benefits : List (String × ℚ)) :
    (calculate_net_salary sd ctc base_salary benefits).annual.deductions.professional_tax =
      min ((calculate_net_salary sd ctc base_salary benefits).monthly.deductions.professional_tax * 12)
        sd.professional_tax.annual_ceiling ∧
    (calculate_net_salary sd ctc base_salary benefits).monthly.deductions.professional_tax =
      calculate_professional_tax sd.professional_tax
        (calculate_net_salary sd ctc base_salary benefits).monthly.gross_salary ∧
    (calculate_net_salary sd ctc base_salary benefits).annual.deductions.pf_contribution =
      (calculate_net_salary sd ctc base_salary benefits).monthly.deductions.pf_contribution * 12 ∧
    (calculate_net_salary sd ctc base_salary benefits).annual.deductions.esi_contribution =
      (calculate_net_salary sd ctc base_salary benefits).monthly.deductions.esi_contribution * 12 ∧
    (calculate_net_salary sd ctc base_salary benefits).annual.deductions.labour_welfare_fund =
      (calculate_net_salary sd ctc base_salary benefits).monthly.deductions.labour_welfare_fund * 12 ∧
    (calculate_net_salary sd ctc base_salary benefits).employer_annual.pf_details.epf_contribution =
      (calculate_net_salary sd ctc base_salary benefits).employer_monthly.pf_details.epf_contribution * 12 ∧
    (calculate_net_salary sd ctc base_salary benefits).employer_annual.pf_details.pension_contribution =
      (calculate_net_salary sd ctc base_salary benefits).employer_monthly.pf_details.pension_contribution * 12 ∧
    (calculate_net_salary sd ctc base_salary benefits).employer_annual.pf_details.admin_charges =
      (calculate_net_salary sd ctc base_salary benefits).employer_monthly.pf_details.admin_charges * 12 ∧
    (calculate_net_salary sd ctc base_salary benefits).employer_annual.pf_details.edli_charges =
      (calculate_net_salary sd ctc base_salary benefits).employer_monthly.pf_details.edli_charges * 12 ∧
    (calculate_net_salary sd ctc base_salary benefits).employer_annual.esi_contribution =
      (calculate_net_salary sd ctc base_salary benefits).employer_monthly.esi_contribution * 12 ∧
    (calculate_net_salary sd ctc base_salary benefits).employer_annual.labour_welfare_fund =
      (calculate_net_salary sd ctc base_salary benefits).employer_monthly.labour_welfare_fund * 12 ∧
    (calculate_net_salary sd ctc base_salary benefits).employer_annual.total_contributions =
      (calculate_net_salary sd ctc base_salary benefits).employer_monthly.total_contributions * 12 ∧
    (calculate_net_salary sd ctc base_salary benefits).annual.base_salary =
      (calculate_net_salary sd ctc base_salary benefits).monthly.base_salary * 12 ∧
    (calculate_net_salary sd ctc base_salary benefits).annual.gross_salary =
      (calculate_net_salary sd ctc base_salary benefits).monthly.gross_salary * 12 :=
  ⟨rfl, rfl, rfl, rfl, rfl, rfl, rfl, rfl, rfl, rfl, rfl, rfl, rfl, rfl⟩

/-- C10: in the breakdown's compliance summary,
`professional_tax_applicable` is true exactly when the computed monthly
professional tax is strictly positive, and `esi_applicable` equals the
applicable flag `calculate_esi` returns for the computed gross salary. -/
theorem claim_C10 (sd : StateData) (ctc base_salary : ℚ)
    (benefits : List (String × ℚ)) :
    ((calculate_net_salary sd ctc base_salary benefits).compliance.professional_tax_applicable =
        true ↔
      0 < (calculate_net_salary sd ctc base_salary benefits).monthly.deductions.professional_tax) ∧
    (calculate_net_salary sd ctc base_salary benefits).compliance.esi_applicable =
      (calculate_esi sd.esi
        (calculate_net_salary sd ctc base_salary benefits).monthly.gross_salary).applicable :=
  ⟨by constructor
      · intro h
        exact of_decide_eq_true h
      · intro h
        exact decide_eq_true h,
    rfl⟩

/-- C7: `validate_salary` rejects non-positive CTC first, then non-positive
base salary, then the first benefit with a negative value in insertion order;
with those checks passed it fails with the gross-exceeds-CTC error exactly
when the gross salary exceeds `ctc/12 + 1` (a fixed 1-unit tolerance) and
succeeds otherwise, so gross salaries of exactly `ctc/12` or `ctc/12 + 1` are
accepted. -/
theorem claim_C7 (ctc base_salary : ℚ) (benefits : List (String × ℚ)) :
    (ctc ≤ 0 →
      validate_salary ctc base_salary benefits = Except.error ValErr.nonPositiveCtc) ∧
    (0 < ctc → base_salary ≤ 0 →
      validate_salary ctc base_salary benefits = Except.error ValErr.nonPositiveBaseSalary) ∧
    (0 < ctc → 0 < base_salary →
      ∀ pre name v post, benefits = pre ++ (name, v) :: post →
        (∀ b ∈ pre, 0 ≤ b.2) → v < 0 →
        validate_salary ctc base_salary benefits =
          Except.error (ValErr.negativeBenefit name)) ∧
    (0 < ctc → 0 < base_salary → (∀ b ∈ benefits, 0 ≤ b.2) →
      (ctc / 12 + 1 < base_salary + (benefits.map Prod.snd).sum →
        validate_salary ctc base_salary benefits =
          Except.error (ValErr.grossExceedsCtc
            (base_salary + (benefits.map Prod.snd).sum) (ctc / 12))) ∧
      (base_salary + (benefits.map Prod.snd).sum ≤ ctc / 12 + 1 →
        validate_salary ctc base_salary benefits = Except.ok true)) := by
  refine ⟨?_, ?_, ?_, ?_⟩
  · intro h
    unfold validate_salary
    rw [if_pos h]
  · intro hc hb
    unfold validate_salary
    rw [if_neg (not_le.mpr hc), if_pos hb]
  · intro hc hb pre name v post hsplit hpre hv
    have hnone : List.find? (fun b => decide (b.2 < 0)) pre = none :=
      List.find?_eq_none.mpr (fun b hmem => by simpa using not_lt.mpr (hpre b hmem))
    unfold validate_salary
    rw [if_neg (not_le.mpr hc), if_neg (not_le.mpr hb), hsplit, List.find?_append, hnone,
      Option.none_or, List.find?_cons_of_pos _ (by simpa using hv)]
  · intro hc hb hall
    have hnone : benefits.find? (fun b => decide (b.2 < 0)) = none :=
      List.find?_eq_none.mpr (fun b hmem => by simpa using not_lt.mpr (hall b hmem))
    constructor
    · intro hgt
      unfold validate_salary
      rw [if_neg (not_le.mpr hc), if_neg (not_le.mpr hb), hnone]
      show (if base_salary + (benefits.map Prod.snd).sum > ctc / 12 + 1 then
          Except.error (ValErr.grossExceedsCtc
            (base_salary + (benefits.map Prod.snd).sum) (ctc / 12))
        else Except.ok true) = _
      rw [if_pos hgt]
    · intro hle
      unfold validate_salary
      rw [if_neg (not_le.mpr hc), if_neg (not_le.mpr hb), hnone]
      show (if base_salary + (benefits.map Prod.snd).sum > ctc / 12 + 1 then
          Except.error (ValErr.grossExceedsCtc
            (base_salary + (benefits.map Prod.snd).sum) (ctc / 12))
        else Except.ok true) = _
      rw [if_neg (not_lt.mpr hle)]

/-- Witness for C7: a non-positive CTC is rejected; a gross salary exactly
equal to `ctc/12 + 1` (base 2 against CTC 12) is accepted. -/
theorem claim_C7_witness :
    validate_salary 0 5 [] = Except.error ValErr.nonPositiveCtc ∧
    validate_salary 12 2 [] = Except.ok true :=
  ⟨(claim_C7 0 5 []).1 le_rfl,
    ((claim_C7 12 2 []).2.2.2 (by norm_num) (by norm_num) (by simp)).2 (by norm_num)⟩

/-- C8: `validate_employee_data` fails on the first absent field among `ctc`,
`base_salary`, `location` in that fixed order; benefits default to the empty
mapping; the location is validated before the salary figures, so location
errors take precedence; and on success the result is a copy of the input with
only the location replaced by its lowercase form. -/
theorem claim_C8 (allowed_states : List String) (d : EmployeeData) :
    (d.ctc = none →
      validate_employee_data allowed_states d =
        Except.error (ValErr.missingField "ctc")) ∧
    (∀ c, d.ctc = some c → d.base_salary = none →
      validate_employee_data allowed_states d =
        Except.error (ValErr.missingField "base_salary")) ∧
    (∀ c b, d.ctc = some c → d.base_salary = some b → d.location = none →
      validate_employee_data allowed_states d =
        Except.error (ValErr.missingField "location")) ∧
    (∀ c b loc, d.ctc = some c → d.base_salary = some b → d.location = some loc →
      (str_lower loc ∉ allowed_states →
        validate_employee_data allowed_states d =
          Except.error (ValErr.invalidLocation (str_lower loc))) ∧
      (str_lower loc ∈ allowed_states →
        validate_employee_data allowed_states d =
          (validate_salary c b (d.benefits.getD [])).map
            (fun _ => { d with location := some (str_lower loc) }))) := by
  refine ⟨?_, ?_, ?_, ?_⟩
  · intro h
    unfold validate_employee_data
    rw [h]
  · intro c hc hb
    unfold validate_employee_data
    rw [hc, hb]
  · intro c b hc hb hl
    unfold validate_employee_data
    rw [hc, hb, hl]
  · intro c b loc hc hb hl
    constructor
    · intro hnot
      unfold validate_employee_data validate_location
      rw [hc, hb, hl]
      simp only [if_neg hnot]
    · intro hmem
      unfold validate_employee_data validate_location
      rw [hc, hb, hl]
      simp only [if_pos hmem]
      cases hval : validate_salary c b (d.benefits.getD []) <;>
        simp [hval, hc, hb, Except.map]

/-- The raw employee record of the repository's end-to-end sample: annual CTC
300000, base 15000, two benefits, location spelled with a capital letter. -/
def rawEmployee : EmployeeData :=
  { ctc := some 300000
    base_salary := some 15000
    location := some "Maharashtra"
    benefits := some [("hra", 6000), ("conveyance", 1000)] }

/-- Witness for C8: the sample employee record validates successfully and is
returned unchanged except for the lowercased location. -/
theorem claim_C8_witness :
    validate_employee_data ["maharashtra", "karnataka"] rawEmployee =
      Except.ok { rawEmployee with location := some "maharashtra" } := by
  have h := ((claim_C8 ["maharashtra", "karnataka"] rawEmployee).2.2.2
    300000 15000 "Maharashtra" rfl rfl rfl).2 (by decide)
  rw [h]
  have hval : validate_salary 300000 15000 [("hra", 6000), ("conveyance", 1000)] =
      Except.ok true := by
    norm_num [validate_salary, List.find?]
  rw [show rawEmployee.benefits.getD [] = [("hra", 6000), ("conveyance", 1000)] from rfl, hval]
  have hlow : str_lower "Maharashtra" = "maharashtra" := by decide
  simp [Except.map, hlow]

end Payroll
